import Mathlib

/-!
Verification of the Fishbowl API client (`fishbowl/api.py`).

This file gives a shallow embedding of the connection / message-exchange
protocol layer of the client: the session state machine (`connect`,
`close`, `send_message`, `send_request`, and the inventory helpers), the
4-byte big-endian length framing (`pack_message`), and the status-code
classification (`check_status`).  The transport is modelled by an explicit
script of receive results; the external XML parser (lxml) is a function
parameter; the request builders and the status registry, which live in
modules outside the embedded source file, are modelled from the
specification and marked as such.
-/

/-- Python exception values distinguished by the embedded code. -/
inductive PyErr where
  | fishbowl (msg : String)     -- FishbowlError(msg)
  | os (msg : String)           -- OSError(msg)
  | structError                 -- struct.error from pack/unpack
  | xmlParseError               -- etree.XMLSyntaxError
  | attrError                   -- AttributeError (attribute access on None)
  | connectionError             -- socket-level failure in make_stream
  | streamCloseError            -- an exception raised by stream.close()
deriving Repr, DecidableEq

/-- An lxml element: tag, attributes, text, children. -/
inductive XmlElem where
  | mk (tag : String) (attrs : List (String × String)) (text : Option String)
      (children : List XmlElem)

def XmlElem.tag : XmlElem → String
  | .mk t _ _ _ => t

def XmlElem.attrs : XmlElem → List (String × String)
  | .mk _ a _ _ => a

def XmlElem.text : XmlElem → Option String
  | .mk _ _ x _ => x

def XmlElem.children : XmlElem → List XmlElem
  | .mk _ _ _ cs => cs

/-- `element.get(name)`: attribute lookup, `None` when absent. -/
def XmlElem.get (e : XmlElem) (name : String) : Option String :=
  (e.attrs.find? (fun p => p.1 = name)).map Prod.snd

/-- `element.find(name)` with a plain tag name: first direct child with
that tag, `None` when absent. -/
def XmlElem.find (e : XmlElem) (name : String) : Option XmlElem :=
  e.children.find? (fun c => c.tag = name)

mutual

/-- `element.iter()`: the element followed by all descendants in document
order (preorder). -/
def XmlElem.iter : XmlElem → List XmlElem
  | .mk t a x cs => .mk t a x cs :: iterList cs

def iterList : List XmlElem → List XmlElem
  | [] => []
  | c :: cs => c.iter ++ iterList cs

end

/-- `etree.Element("empty")`: the empty placeholder element. -/
def emptyElem : XmlElem := .mk "empty" [] none []

/-- The session state of a `Fishbowl` instance: `_connected`, `key`, the
socket (modelled by whether a stream is open), and the `host`/`port`
class attributes mutated by `connect`. -/
structure Session where
  connected : Bool
  key : Option String
  streamOpen : Bool
  host : String
  port : Nat
deriving Repr, DecidableEq

/-- `Fishbowl.__init__`: a fresh, disconnected session with the class
defaults. -/
def initSession : Session :=
  { connected := false, key := none, streamOpen := false
    host := "localhost", port := 28192 }

/-- Result of one `stream.recv(1)` call: a timeout, an empty chunk
(peer closed), or a single byte. -/
inductive Recv1 where
  | timeout
  | eof
  | byte (b : Nat)
deriving Repr, DecidableEq

/-- Result of the single `stream.recv(4)` call: a timeout or a chunk of
bytes (the transport may return fewer than 4). -/
inductive Recv4 where
  | timeout
  | data (bs : List Nat)
deriving Repr, DecidableEq

/-- The behaviour of the transport during one response read: the result of the
`recv(4)` call and the results of the successive `recv(1)` calls. -/
structure Script where
  first : Recv4
  rest : Nat → Recv1

/-- `struct.unpack(">L", bs)[0]`: big-endian 32-bit value; `struct.error`
(modelled as `none`) unless the buffer holds exactly 4 bytes. -/
def unpackBE4 (bs : List Nat) : Option Nat :=
  match bs with
  | [a, b, c, d] => some (((a * 256 + b) * 256 + c) * 256 + d)
  | _ => none

/-- The 4 big-endian bytes of a value below `2^32`. -/
def packBE4c (n : Nat) : List Nat :=
  [n / 2 ^ 24 % 256, n / 2 ^ 16 % 256, n / 2 ^ 8 % 256, n % 256]

/-- `struct.pack(">L", n)`: 4 big-endian bytes, `struct.error` (modelled
as `none`) when the value does not fit in 32 bits. -/
def packBE4 (n : Nat) : Option (List Nat) :=
  if n < 2 ^ 32 then some (packBE4c n) else none

/-- `Fishbowl.pack_message`: length-prefix the payload with
`struct.pack(">L", len(msg))`. -/
def pack_message (msg : List Nat) : Option (List Nat) :=
  (packBE4 msg.length).map (fun p => p ++ msg)

/-- Modelled from the spec: `statuscodes.SUCCESS`, the single non-error
status code (the `statuscodes` module is not under `src/`; scenario A of
the spec identifies `"1000"` as SUCCESS). -/
def SUCCESS : String := "1000"

/-- Modelled from the spec: `statuscodes.get_status`, a static mapping
from status code to human-readable message with a fallback for unknown
codes (the `statuscodes` module is not under `src/`). -/
def get_status (code : Option String) : String :=
  match code with
  | some "1000" => "Success!"
  | some "1001" => "Unknown message received."
  | _ => "Unknown status"

/-- `check_status(code, expected, allow_none)`: raise (modelled as
`.error`) when the code differs from the expected one and either the code
is present or missing codes are not allowed; otherwise return the
message. -/
def check_status (code : Option String) (expected : Option String)
    (allow_none : Bool) : Except String String :=
  let message := get_status code
  if code ≠ expected ∧ (code ≠ none ∨ allow_none = false) then .error message
  else .ok message

/-- The result of a session operation: a returned value or a raised
exception, the session state afterwards, and the value of `connected` at
each `stream.send` call made by the operation. -/
abbrev OpResult (α : Type) := Except PyErr α × Session × List Bool

/-- The `require_connected` decorator: raise `OSError("Not connected")`
before running the wrapped method when the session is not connected. -/
def require_connected {α : Type} (f : Session → OpResult α) (s : Session) :
    OpResult α :=
  if s.connected then f s else (.error (.os "Not connected"), s, [])

/-- The session state after a successful `stream.close()` inside
`Fishbowl.close`: `_connected` and `key` cleared, socket closed. -/
def closedOf (s : Session) : Session :=
  { s with connected := false, key := none, streamOpen := false }

/-- `Fishbowl.close(skip_errors)`: guarded by `require_connected`; clears
`_connected` and `key`, then closes the stream, re-raising a close
failure only when `skip_errors` is false.  `closeRaises` is the
environment: whether `stream.close()` raises. -/
def close (closeRaises : Bool) (skip_errors : Bool) : Session → OpResult Unit :=
  require_connected fun s =>
    if closeRaises ∧ skip_errors = false then (.error .streamCloseError, closedOf s, [])
    else (.ok (), closedOf s, [])

/-- The body-reading loop of `send_message`: starting at `recv(1)` call
number `i` with `n = length - byte_count` iterations to go and `acc` the
bytes received so far, return the accumulated response or `none` on a
socket timeout.  Each iteration increments `byte_count` by one whether
the chunk held a byte or was empty. -/
def read_body (rest : Nat → Recv1) (i : Nat) (n : Nat) (acc : List Nat) :
    Option (List Nat) :=
  match n with
  | 0 => some acc
  | n + 1 =>
    match rest i with
    | .timeout => none
    | .eof => read_body rest (i + 1) n acc
    | .byte b => read_body rest (i + 1) n (acc ++ [b])

/-- The body of `Fishbowl.send_message` on payload bytes: pack and send
the request, read the 4-byte length with a single `recv(4)`, unpack it,
loop reading the body one `recv(1)` at a time, close the connection on a
socket timeout, and hand the assembled body to the XML parser.  `parse`
stands for `etree.fromstring` composed with the latin-1 decode, and `sc`
is the transport script for this exchange. -/
def send_message_body (parse : List Nat → Except PyErr XmlElem)
    (msg : List Nat) (sc : Script) (s : Session) : OpResult XmlElem :=
  match pack_message msg with
  | none => (.error .structError, s, [])
  | some _ =>
    let tr := [s.connected]
    match sc.first with
    | .timeout => (.error (.fishbowl "Connection timeout"), closedOf s, tr)
    | .data bs =>
      match unpackBE4 bs with
      | none => (.error .structError, s, tr)
      | some length =>
        match read_body sc.rest 0 length [] with
        | none =>
          (.error (.fishbowl "Connection timeout (after length received)"),
            closedOf s, tr)
        | some body => (parse body, s, tr)

/-- `Fishbowl.send_message`: the body wrapped in `require_connected`. -/
def send_message (parse : List Nat → Except PyErr XmlElem) (msg : List Nat)
    (sc : Script) : Session → OpResult XmlElem :=
  require_connected (send_message_body parse msg sc)

/-- Modelled from the spec: the request builders of the `xmlrequests`
module (not under `src/`) are pure data formatting producing opaque XML
payload bytes; the claims never inspect request contents.  Requests are
rendered as the bytes of a label built from their arguments. -/
def strBytes (s : String) : List Nat :=
  s.toList.map Char.toNat

/-- Modelled from the spec: `xmlrequests.Login(username, password).request`
(the `xmlrequests` module is not under `src/`). -/
def loginRequest (username password : String) : List Nat :=
  strBytes ("LoginRq:" ++ username ++ ":" ++ password)

/-- Modelled from the spec:
`xmlrequests.SimpleRequest(name, value, key).request` (the `xmlrequests`
module is not under `src/`). -/
def simpleRequest (name : String) (value : Option String)
    (key : Option String) : List Nat :=
  strBytes (name ++ ":" ++ value.getD "" ++ ":" ++ key.getD "")

/-- The `for element in response.iter()` loop of `connect`, one element:
record the text of a `Key` element, and on the recognized login tags
validate a present, non-empty `statusCode` attribute. -/
def login_scan_step (key : Option String) (el : XmlElem) :
    Except PyErr (Option String) :=
  let key := if el.tag = "Key" then el.text else key
  if el.tag = "loginRs" ∨ el.tag = "LoginRs" ∨ el.tag = "FbiMsgsRs" then
    match el.get "statusCode" with
    | some sc =>
      if sc ≠ "" then
        match check_status (some sc) (some SUCCESS) false with
        | .error m => .error (.fishbowl m)
        | .ok _ => .ok key
      else .ok key
    | none => .ok key
  else .ok key

/-- The key/status scan of `connect` over the whole login response. -/
def login_scan (resp : XmlElem) : Except PyErr (Option String) :=
  resp.iter.foldlM login_scan_step none

/-- Python truthiness of `self.key` in `if not self.key`: falsy when
`None` or the empty string. -/
def falsyKey : Option String → Bool
  | none => true
  | some k => k = ""

/-- Environment for one `connect` call: whether `stream.close()` raises
when invoked, whether `make_stream` succeeds, and the transport script
for the login exchange. -/
structure ConnectEnv where
  closeRaises : Bool
  streamOk : Bool
  script : Script

/-- The `except Exception: self.close(skip_errors=True); raise` handler
of `connect`: when the second close itself raises (it does when the
session is already disconnected, since `close` is guarded by
`require_connected`), its exception replaces the original one. -/
def connect_cleanup (err : PyErr) (closeRaises : Bool) (s : Session)
    (tr : List Bool) : OpResult Unit :=
  match close closeRaises true s with
  | (.ok _, s2, _) => (.error err, s2, tr)
  | (.error err2, s2, _) => (.error err2, s2, tr)

/-- The `try` block of `connect`: set `self.key = None`, send the login
request, scan the response for the session key while validating status
codes, fail with `"No login key in response"` when no (non-empty) key
was found, and on any exception run the cleanup handler before
re-raising. -/
def connect_login (parse : List Nat → Except PyErr XmlElem)
    (username password : String) (closeRaises : Bool) (sc : Script)
    (s : Session) : OpResult Unit :=
  match send_message parse (loginRequest username password) sc s with
  | (.error err, s4, tr) => connect_cleanup err closeRaises s4 tr
  | (.ok resp, s4, tr) =>
    match login_scan resp with
    | .error err => connect_cleanup err closeRaises s4 tr
    | .ok keyv =>
      if falsyKey keyv then
        connect_cleanup (.fishbowl "No login key in response") closeRaises s4 tr
      else (.ok (), { s4 with key := keyv }, tr)

/-- `Fishbowl.connect`: close any prior connection, update host/port,
open the stream, optimistically mark the session connected with
`self.key = None`, then run the login exchange (`connect_login`).
Password hashing (`base64`/`hashlib`, external libraries) does not touch
the session state and is elided. -/
def connect (parse : List Nat → Except PyErr XmlElem)
    (username password : String) (host : Option String) (port : Option Nat)
    (e : ConnectEnv) (s : Session) : OpResult Unit :=
  match (if s.connected then close e.closeRaises false s else (.ok (), s, [])) with
  | (.error err, s1, tr) => (.error err, s1, tr)
  | (.ok _, s1, _) =>
    let s2 := { s1 with host := host.getD s1.host, port := port.getD s1.port }
    if e.streamOk = false then (.error .connectionError, s2, [])
    else
      connect_login parse username password e.closeRaises e.script
        { s2 with streamOpen := true, connected := true, key := none }

/-- The response post-processing of `send_request` (it touches no session
state): locate `root.find("FbiMsgsRs").find(response_node_name)`
(attribute access on a `None` find result raises `AttributeError`),
validate its status code with missing codes allowed, return the empty
placeholder instead of raising when `silence_errors` is set, and unwrap
to the single first child (or the empty placeholder) when `single` is
set. -/
def send_request_post (root : XmlElem) (response_node_name : Option String)
    (single : Bool) (silence_errors : Bool) : Except PyErr XmlElem :=
  match response_node_name with
  | none => .ok root
  | some rname =>
    match root.find "FbiMsgsRs" with
    | none => .error .attrError
    | some container =>
      match container.find rname with
      | none => .error .attrError
      | some located =>
        match check_status (located.get "statusCode") (some SUCCESS) true with
        | .error m =>
          if silence_errors then .ok emptyElem
          else .error (.fishbowl m)
        | .ok _ =>
          if single then
            match located.children with
            | [] => .ok emptyElem
            | c :: _ => .ok c
          else .ok located

/-- The body of `Fishbowl.send_request`: build a simple request carrying
the session key, send it, then post-process the parsed response. -/
def send_request_body (parse : List Nat → Except PyErr XmlElem)
    (name : String) (value : Option String) (response_node_name : Option String)
    (single : Bool) (silence_errors : Bool) (sc : Script) (s : Session) :
    OpResult XmlElem :=
  match send_message parse (simpleRequest name value s.key) sc s with
  | (.error e, s1, tr) => (.error e, s1, tr)
  | (.ok root, s1, tr) =>
    (send_request_post root response_node_name single silence_errors, s1, tr)

/-- `Fishbowl.send_request`: the body wrapped in `require_connected`. -/
def send_request (parse : List Nat → Except PyErr XmlElem) (name : String)
    (value : Option String) (response_node_name : Option String)
    (single : Bool) (silence_errors : Bool) (sc : Script) :
    Session → OpResult XmlElem :=
  require_connected
    (send_request_body parse name value response_node_name single
      silence_errors sc)

/-- The row-collecting loop of `send_query`: `row.text.encode("utf-8")`
raises `AttributeError` when the text of a row is `None`; otherwise the row
texts are the lines handed to `csv.DictReader`. -/
def collectRows : List XmlElem → Option (List String)
  | [] => some []
  | el :: elsRest =>
    match el.text with
    | none => none
    | some t => (collectRows elsRest).map (fun ts => t :: ts)

/-- The row post-processing of `send_query` (it touches no session
state). -/
def send_query_post (resp : XmlElem) : Except PyErr (List String) :=
  match collectRows (resp.iter.filter (fun el => el.tag = "Row")) with
  | none => .error .attrError
  | some rows => .ok rows

/-- The body of `Fishbowl.send_query`: delegate to `send_request` with
response node `ExecuteQueryRs`, then collect the text of every `Row`
element into the lines handed to the CSV reader. -/
def send_query_body (parse : List Nat → Except PyErr XmlElem)
    (query : String) (sc : Script) (s : Session) : OpResult (List String) :=
  match send_request parse "ExecuteQueryRq" (some query)
      (some "ExecuteQueryRs") true false sc s with
  | (.error e, s1, tr) => (.error e, s1, tr)
  | (.ok resp, s1, tr) => (send_query_post resp, s1, tr)

/-- `Fishbowl.send_query`: the body wrapped in `require_connected`. -/
def send_query (parse : List Nat → Except PyErr XmlElem) (query : String)
    (sc : Script) : Session → OpResult (List String) :=
  require_connected (send_query_body parse query sc)

/-- Modelled from the spec:
`xmlrequests.AddInventory(...).request` (the `xmlrequests` module is not
under `src/`). -/
def addInventoryRequest (partnum qty uomid cost loctagnum : String)
    (key : Option String) : List Nat :=
  strBytes ("AddInventoryRq:" ++ partnum ++ ":" ++ qty ++ ":" ++ uomid ++
    ":" ++ cost ++ ":" ++ loctagnum ++ ":" ++ key.getD "")

/-- Modelled from the spec:
`xmlrequests.CycleCount(...).request` (the `xmlrequests` module is not
under `src/`). -/
def cycleCountRequest (partnum qty locationid : String)
    (key : Option String) : List Nat :=
  strBytes ("CycleCountRq:" ++ partnum ++ ":" ++ qty ++ ":" ++ locationid ++
    ":" ++ key.getD "")

/-- Modelled from the spec:
`xmlrequests.GetPOList(locationgroup).request` (the `xmlrequests` module
is not under `src/`). -/
def getPOListRequest (locationgroup : String) (key : Option String) :
    List Nat :=
  strBytes ("GetPOListRq:" ++ locationgroup ++ ":" ++ key.getD "")

/-- The per-element status check shared by `add_inventory` and
`cycle_inventory`: for each matching response element, validate a
present, non-empty `statusCode` attribute, raising on the first bad
code. -/
def statusSweep : List XmlElem → Except String Unit
  | [] => .ok ()
  | el :: elsRest =>
    match el.get "statusCode" with
    | some sc =>
      if sc ≠ "" then
        match check_status (some sc) (some SUCCESS) false with
        | .error m => .error m
        | .ok _ => statusSweep elsRest
      else statusSweep elsRest
    | none => statusSweep elsRest

/-- The response status sweep of `add_inventory` (it touches no session
state). -/
def add_inventory_post (resp : XmlElem) : Except PyErr Unit :=
  match statusSweep (resp.iter.filter (fun el => el.tag = "AddInventoryRs")) with
  | .error m => .error (.fishbowl m)
  | .ok _ => .ok ()

/-- The body of `Fishbowl.add_inventory`: send the request, then check the
status code of every `AddInventoryRs` element of the response. -/
def add_inventory_body (parse : List Nat → Except PyErr XmlElem)
    (partnum qty uomid cost loctagnum : String) (sc : Script) (s : Session) :
    OpResult Unit :=
  match send_message parse
      (addInventoryRequest partnum qty uomid cost loctagnum s.key) sc s with
  | (.error e, s1, tr) => (.error e, s1, tr)
  | (.ok resp, s1, tr) => (add_inventory_post resp, s1, tr)

/-- `Fishbowl.add_inventory`: the body wrapped in `require_connected`. -/
def add_inventory (parse : List Nat → Except PyErr XmlElem)
    (partnum qty uomid cost loctagnum : String) (sc : Script) :
    Session → OpResult Unit :=
  require_connected (add_inventory_body parse partnum qty uomid cost loctagnum sc)

/-- The response status sweep of `cycle_inventory` (it touches no session
state). -/
def cycle_inventory_post (resp : XmlElem) : Except PyErr Unit :=
  match statusSweep (resp.iter.filter (fun el => el.tag = "CycleCountRs")) with
  | .error m => .error (.fishbowl m)
  | .ok _ => .ok ()

/-- The body of `Fishbowl.cycle_inventory`: send the request, then check
the status code of every `CycleCountRs` element of the response. -/
def cycle_inventory_body (parse : List Nat → Except PyErr XmlElem)
    (partnum qty locationid : String) (sc : Script) (s : Session) :
    OpResult Unit :=
  match send_message parse (cycleCountRequest partnum qty locationid s.key) sc s with
  | (.error e, s1, tr) => (.error e, s1, tr)
  | (.ok resp, s1, tr) => (cycle_inventory_post resp, s1, tr)

/-- `Fishbowl.cycle_inventory`: the body wrapped in `require_connected`. -/
def cycle_inventory (parse : List Nat → Except PyErr XmlElem)
    (partnum qty locationid : String) (sc : Script) :
    Session → OpResult Unit :=
  require_connected (cycle_inventory_body parse partnum qty locationid sc)

/-- The body of `Fishbowl.get_po_list`: send the request and return the
parsed response root. -/
def get_po_list_body (parse : List Nat → Except PyErr XmlElem)
    (locationgroup : String) (sc : Script) (s : Session) : OpResult XmlElem :=
  send_message parse (getPOListRequest locationgroup s.key) sc s

/-- `Fishbowl.get_po_list`: the body wrapped in `require_connected`. -/
def get_po_list (parse : List Nat → Except PyErr XmlElem)
    (locationgroup : String) (sc : Script) : Session → OpResult XmlElem :=
  require_connected (get_po_list_body parse locationgroup sc)

/-- The session invariant of the spec: whenever `connected` is true the
session key is a present, non-empty value. -/
def SessionInv (s : Session) : Prop :=
  s.connected = true → ∃ k, s.key = some k ∧ k ≠ ""

/-- Every `stream.send` performed by an operation happened while
`connected` was true. -/
def TraceOk (tr : List Bool) : Prop :=
  ∀ b ∈ tr, b = true

/-- A transport script that delivers the 4-byte length of `body` in the
single `recv(4)` call and then one body byte per `recv(1)` call. -/
def delivers (sc : Script) (body : List Nat) : Prop :=
  sc.first = .data (packBE4c body.length) ∧ body.length < 2 ^ 32 ∧
    ∀ i, i < body.length → sc.rest i = .byte (body.getD i 0)

theorem unpackBE4_packBE4c (n : Nat) (h : n < 2 ^ 32) :
    unpackBE4 (packBE4c n) = some n := by
  simp only [unpackBE4, packBE4c]
  congr 1
  omega

theorem read_body_consume (rest : Nat → Recv1) (bs : List Nat) :
    ∀ (i : Nat) (acc : List Nat) (k : Nat),
      (∀ j, j < bs.length → rest (i + j) = .byte (bs.getD j 0)) →
      read_body rest i (bs.length + k) acc =
        read_body rest (i + bs.length) k (acc ++ bs) := by
  induction bs with
  | nil => intro i acc k _; simp
  | cons b bs ih =>
    intro i acc k h
    have h0 : rest i = .byte b := by simpa using h 0 (by simp)
    have hlen : (b :: bs).length + k = (bs.length + k) + 1 := by
      simp [List.length_cons]; omega
    rw [hlen]
    simp only [read_body, h0]
    have hrec := ih (i + 1) (acc ++ [b]) k (fun j hj => by
      have := h (j + 1) (by simpa using Nat.succ_lt_succ hj)
      rw [show i + (j + 1) = (i + 1) + j by omega] at this
      simpa using this)
    rw [hrec]
    congr 1
    · omega
    · simp

theorem read_body_eof (rest : Nat → Recv1) :
    ∀ (n i : Nat) (acc : List Nat), (∀ j, j < n → rest (i + j) = .eof) →
      read_body rest i n acc = some acc := by
  intro n
  induction n with
  | zero => intro i acc _; rfl
  | succ n ih =>
    intro i acc h
    have h0 : rest i = .eof := by simpa using h 0 (Nat.succ_pos n)
    simp only [read_body, h0]
    exact ih (i + 1) acc (fun j hj => by
      have := h (j + 1) (by omega)
      rw [show i + (j + 1) = (i + 1) + j by omega] at this
      exact this)

theorem read_body_timeout (rest : Nat → Recv1) :
    ∀ (n i j : Nat) (acc : List Nat), j < n → rest (i + j) = .timeout →
      (∀ j2, j2 < j → rest (i + j2) ≠ .timeout) →
      read_body rest i n acc = none := by
  intro n
  induction n with
  | zero => intro i j acc h; omega
  | succ n ih =>
    intro i j acc hj ht hmin
    cases j with
    | zero =>
      have h0 : rest i = .timeout := by simpa using ht
      simp [read_body, h0]
    | succ j =>
      have h0 : rest i ≠ .timeout := by simpa using hmin 0 (Nat.succ_pos j)
      have ht2 : rest ((i + 1) + j) = .timeout := by
        rw [show (i + 1) + j = i + (j + 1) by omega]; exact ht
      have hmin2 : ∀ j2, j2 < j → rest ((i + 1) + j2) ≠ .timeout := fun j2 h2 => by
        rw [show (i + 1) + j2 = i + (j2 + 1) by omega]
        exact hmin (j2 + 1) (by omega)
      cases hre : rest i with
      | timeout => exact absurd hre h0
      | eof =>
        simp only [read_body, hre]
        exact ih (i + 1) j acc (by omega) ht2 hmin2
      | byte b =>
        simp only [read_body, hre]
        exact ih (i + 1) j (acc ++ [b]) (by omega) ht2 hmin2

theorem send_message_of_delivers (parse : List Nat → Except PyErr XmlElem)
    (msg body : List Nat) (sc : Script) (s : Session)
    (hc : s.connected = true) (hm : msg.length < 2 ^ 32)
    (hd : delivers sc body) :
    send_message parse msg sc s = (parse body, s, [true]) := by
  obtain ⟨h1, h2, h3⟩ := hd
  have hpack : pack_message msg = some (packBE4c msg.length ++ msg) := by
    unfold pack_message packBE4
    rw [if_pos hm]
    rfl
  have hread : read_body sc.rest 0 body.length [] = some body := by
    have := read_body_consume sc.rest body 0 [] 0 (fun j hj => by
      simpa using h3 j hj)
    simpa using this
  simp [send_message, require_connected, hc, send_message_body, hpack, h1,
    unpackBE4_packBE4c body.length h2, hread]

theorem send_message_cases (parse : List Nat → Except PyErr XmlElem)
    (msg : List Nat) (sc : Script) (s : Session) :
    (s.connected = false ∧
      send_message parse msg sc s = (.error (.os "Not connected"), s, [])) ∨
    (send_message parse msg sc s = (.error PyErr.structError, s, [])) ∨
    (s.connected = true ∧ ∃ m,
      send_message parse msg sc s = (.error (.fishbowl m), closedOf s, [true])) ∨
    (s.connected = true ∧
      send_message parse msg sc s = (.error PyErr.structError, s, [true])) ∨
    (s.connected = true ∧ ∃ body,
      send_message parse msg sc s = (parse body, s, [true])) := by
  by_cases hc : s.connected = true
  · cases hp : pack_message msg with
    | none =>
      refine Or.inr (Or.inl ?_)
      simp [send_message, require_connected, hc, send_message_body, hp]
    | some packed =>
      cases hf : sc.first with
      | timeout =>
        refine Or.inr (Or.inr (Or.inl ⟨hc, "Connection timeout", ?_⟩))
        simp [send_message, require_connected, hc, send_message_body, hp, hf]
      | data bs =>
        cases hu : unpackBE4 bs with
        | none =>
          refine Or.inr (Or.inr (Or.inr (Or.inl ⟨hc, ?_⟩)))
          simp [send_message, require_connected, hc, send_message_body, hp, hf, hu]
        | some len =>
          cases hr : read_body sc.rest 0 len [] with
          | none =>
            refine Or.inr (Or.inr (Or.inl
              ⟨hc, "Connection timeout (after length received)", ?_⟩))
            simp [send_message, require_connected, hc, send_message_body,
              hp, hf, hu, hr]
          | some body =>
            refine Or.inr (Or.inr (Or.inr (Or.inr ⟨hc, body, ?_⟩)))
            simp [send_message, require_connected, hc, send_message_body,
              hp, hf, hu, hr]
  · refine Or.inl ⟨by simpa using hc, ?_⟩
    simp [send_message, require_connected, hc]

theorem send_message_inv (parse : List Nat → Except PyErr XmlElem)
    (msg : List Nat) (sc : Script) (s : Session) (hs : SessionInv s) :
    SessionInv (send_message parse msg sc s).2.1 := by
  rcases send_message_cases parse msg sc s with
      ⟨_, h⟩ | h | ⟨_, m, h⟩ | ⟨_, h⟩ | ⟨_, body, h⟩ <;> rw [h]
  · exact hs
  · exact hs
  · intro hcon; simp [closedOf] at hcon
  · exact hs
  · exact hs

theorem send_message_traceOk (parse : List Nat → Except PyErr XmlElem)
    (msg : List Nat) (sc : Script) (s : Session) :
    TraceOk (send_message parse msg sc s).2.2 := by
  rcases send_message_cases parse msg sc s with
      ⟨_, h⟩ | h | ⟨_, m, h⟩ | ⟨_, h⟩ | ⟨_, body, h⟩ <;> rw [h] <;>
    simp [TraceOk]

theorem send_message_ok_shape (parse : List Nat → Except PyErr XmlElem)
    (msg : List Nat) (sc : Script) (s s1 : Session) (r : XmlElem)
    (tr : List Bool)
    (h : send_message parse msg sc s = (.ok r, s1, tr)) :
    s1 = s ∧ s.connected = true ∧ tr = [true] := by
  rcases send_message_cases parse msg sc s with
      ⟨_, heq⟩ | heq | ⟨_, m, heq⟩ | ⟨_, heq⟩ | ⟨hc, body, heq⟩ <;>
    rw [heq] at h
  · simp at h
  · simp at h
  · simp at h
  · simp at h
  · simp only [Prod.mk.injEq] at h
    exact ⟨h.2.1.symm, hc, h.2.2.symm⟩

/-- A login-response element whose `statusCode` attribute cannot make
`check_status` raise: absent, empty (skipped by truthiness), or the
success code. -/
def benignStatus (el : XmlElem) : Prop :=
  el.get "statusCode" = none ∨ el.get "statusCode" = some "" ∨
    el.get "statusCode" = some SUCCESS

instance (el : XmlElem) : Decidable (benignStatus el) := by
  unfold benignStatus
  infer_instance

theorem login_scan_step_id (k : Option String) (el : XmlElem)
    (hk : el.tag ≠ "Key") (hb : benignStatus el) :
    login_scan_step k el = .ok k := by
  rcases hb with h | h | h <;>
    simp [login_scan_step, hk, h, check_status, SUCCESS]

theorem login_scan_fold (l : List XmlElem) :
    ∀ k, (∀ el ∈ l, el.tag ≠ "Key") → (∀ el ∈ l, benignStatus el) →
      l.foldlM login_scan_step k = .ok k := by
  induction l with
  | nil => intro k _ _; rfl
  | cons e l ih =>
    intro k h1 h2
    have hstep := login_scan_step_id k e (h1 e (by simp)) (h2 e (by simp))
    rw [List.foldlM_cons, hstep]
    exact ih k (fun el hel => h1 el (by simp [hel]))
      (fun el hel => h2 el (by simp [hel]))

theorem close_inv (closeRaises skip_errors : Bool) (s : Session)
    (hs : SessionInv s) : SessionInv (close closeRaises skip_errors s).2.1 := by
  unfold close require_connected
  by_cases hc : s.connected = true
  · simp only [hc, if_true]
    split <;> intro hcon <;> simp [closedOf] at hcon
  · simp only [hc]
    simpa using hs

theorem close_traceOk (closeRaises skip_errors : Bool) (s : Session) :
    TraceOk (close closeRaises skip_errors s).2.2 := by
  unfold close require_connected
  split
  · split <;> simp [TraceOk]
  · simp [TraceOk]

theorem connect_cleanup_shape (err : PyErr) (closeRaises : Bool)
    (s : Session) (tr : List Bool) :
    (s.connected = true ∧
      connect_cleanup err closeRaises s tr = (.error err, closedOf s, tr)) ∨
    (s.connected = false ∧
      connect_cleanup err closeRaises s tr =
        (.error (.os "Not connected"), s, tr)) := by
  by_cases hc : s.connected = true
  · exact Or.inl ⟨hc, by simp [connect_cleanup, close, require_connected, hc]⟩
  · refine Or.inr ⟨by simpa using hc, ?_⟩
    simp [connect_cleanup, close, require_connected, hc]

theorem falsyKey_false (keyv : Option String) (h : falsyKey keyv = false) :
    ∃ k, keyv = some k ∧ k ≠ "" := by
  cases keyv with
  | none => simp [falsyKey] at h
  | some k =>
    refine ⟨k, rfl, ?_⟩
    simpa [falsyKey] using h

theorem close_shape (cr sk : Bool) (s : Session) :
    (s.connected = true ∧ cr = true ∧ sk = false ∧
      close cr sk s = (.error .streamCloseError, closedOf s, [])) ∨
    (s.connected = true ∧ (cr = false ∨ sk = true) ∧
      close cr sk s = (.ok (), closedOf s, [])) ∨
    (s.connected = false ∧
      close cr sk s = (.error (.os "Not connected"), s, [])) := by
  by_cases hc : s.connected = true
  · cases hcr : cr with
    | true =>
      cases hsk : sk with
      | false =>
        refine Or.inl ⟨hc, rfl, rfl, ?_⟩
        simp [close, require_connected, hc]
      | true =>
        refine Or.inr (Or.inl ⟨hc, Or.inr rfl, ?_⟩)
        simp [close, require_connected, hc]
    | false =>
      refine Or.inr (Or.inl ⟨hc, Or.inl rfl, ?_⟩)
      simp [close, require_connected, hc]
  · have hc2 : s.connected = false := by simpa using hc
    refine Or.inr (Or.inr ⟨hc2, ?_⟩)
    simp [close, require_connected, hc2]

theorem sessionInv_closedOf (s : Session) : SessionInv (closedOf s) := by
  intro hcon
  simp [closedOf] at hcon

theorem connect_login_inv_trace (parse : List Nat → Except PyErr XmlElem)
    (u pw : String) (cr : Bool) (sc : Script) (s : Session) :
    SessionInv (connect_login parse u pw cr sc s).2.1 ∧
      TraceOk (connect_login parse u pw cr sc s).2.2 := by
  unfold connect_login
  rcases hsm : send_message parse (loginRequest u pw) sc s with ⟨res, s4, tr⟩
  have htr : TraceOk tr := by
    have h2 := send_message_traceOk parse (loginRequest u pw) sc s
    rw [hsm] at h2
    exact h2
  have hclean : ∀ err, SessionInv (connect_cleanup err cr s4 tr).2.1 ∧
      TraceOk (connect_cleanup err cr s4 tr).2.2 := by
    intro err
    rcases connect_cleanup_shape err cr s4 tr with ⟨hc4, hcl⟩ | ⟨hc4, hcl⟩ <;>
      rw [hcl]
    · exact ⟨sessionInv_closedOf s4, htr⟩
    · refine ⟨?_, htr⟩
      intro hcon
      rw [hc4] at hcon
      cases hcon
  cases res with
  | error err => exact hclean err
  | ok resp =>
    cases hscan : login_scan resp with
    | error err =>
      simp only [hscan]
      exact hclean err
    | ok keyv =>
      cases hf : falsyKey keyv with
      | true =>
        simp only [hscan, hf, if_true]
        exact hclean (.fishbowl "No login key in response")
      | false =>
        simp only [hscan, hf, Bool.false_eq_true, if_false]
        refine ⟨?_, htr⟩
        intro _
        obtain ⟨k, hk, hne⟩ := falsyKey_false keyv hf
        exact ⟨k, by simp [hk], hne⟩

theorem connect_inv_trace (parse : List Nat → Except PyErr XmlElem)
    (u pw : String) (host : Option String) (port : Option Nat)
    (e : ConnectEnv) (s : Session) :
    SessionInv (connect parse u pw host port e s).2.1 ∧
      TraceOk (connect parse u pw host port e s).2.2 := by
  have htriv : TraceOk ([] : List Bool) := by simp [TraceOk]
  unfold connect
  by_cases hc : s.connected = true
  · rcases close_shape e.closeRaises false s with
        ⟨_, _, _, hcl⟩ | ⟨_, _, hcl⟩ | ⟨hc2, _⟩
    · simp only [hc, if_true, hcl]
      exact ⟨sessionInv_closedOf s, htriv⟩
    · simp only [hc, if_true, hcl]
      cases hso : e.streamOk with
      | false =>
        simp only [reduceIte]
        exact ⟨fun hcon => absurd hcon (by simp [closedOf]), htriv⟩
      | true =>
        exact connect_login_inv_trace parse u pw e.closeRaises e.script _
    · rw [hc] at hc2
      cases hc2
  · have hc2 : s.connected = false := by simpa using hc
    simp only [hc2, Bool.false_eq_true, if_false]
    cases hso : e.streamOk with
    | false =>
      simp only [reduceIte]
      exact ⟨fun hcon => absurd hcon (by simp [hc2]), htriv⟩
    | true =>
      exact connect_login_inv_trace parse u pw e.closeRaises e.script _

theorem send_request_body_shape (parse : List Nat → Except PyErr XmlElem)
    (name : String) (value : Option String) (rnn : Option String)
    (single silence : Bool) (sc : Script) (s : Session) :
    (send_request_body parse name value rnn single silence sc s).2 =
      (send_message parse (simpleRequest name value s.key) sc s).2 := by
  unfold send_request_body
  rcases hsm : send_message parse (simpleRequest name value s.key) sc s with
    ⟨res, s1, tr⟩
  cases res <;> rfl

theorem send_request_inv_trace (parse : List Nat → Except PyErr XmlElem)
    (name : String) (value : Option String) (rnn : Option String)
    (single silence : Bool) (sc : Script) (s : Session) (hs : SessionInv s) :
    SessionInv (send_request parse name value rnn single silence sc s).2.1 ∧
      TraceOk (send_request parse name value rnn single silence sc s).2.2 := by
  unfold send_request require_connected
  by_cases hc : s.connected = true
  · simp only [hc, if_true]
    have hsh := send_request_body_shape parse name value rnn single silence sc s
    constructor
    · rw [congrArg Prod.fst hsh]
      exact send_message_inv parse (simpleRequest name value s.key) sc s hs
    · rw [congrArg Prod.snd hsh]
      exact send_message_traceOk parse (simpleRequest name value s.key) sc s
  · have hc2 : s.connected = false := by simpa using hc
    simp only [hc2, Bool.false_eq_true, if_false]
    exact ⟨hs, by simp [TraceOk]⟩

theorem send_query_body_shape (parse : List Nat → Except PyErr XmlElem)
    (query : String) (sc : Script) (s : Session) :
    (send_query_body parse query sc s).2 =
      (send_request parse "ExecuteQueryRq" (some query) (some "ExecuteQueryRs")
        true false sc s).2 := by
  unfold send_query_body
  rcases hsm : send_request parse "ExecuteQueryRq" (some query)
      (some "ExecuteQueryRs") true false sc s with ⟨res, s1, tr⟩
  cases res <;> rfl

theorem send_query_inv_trace (parse : List Nat → Except PyErr XmlElem)
    (query : String) (sc : Script) (s : Session) (hs : SessionInv s) :
    SessionInv (send_query parse query sc s).2.1 ∧
      TraceOk (send_query parse query sc s).2.2 := by
  unfold send_query require_connected
  by_cases hc : s.connected = true
  · simp only [hc, if_true]
    have hsh := send_query_body_shape parse query sc s
    have hreq := send_request_inv_trace parse "ExecuteQueryRq" (some query)
      (some "ExecuteQueryRs") true false sc s hs
    constructor
    · rw [congrArg Prod.fst hsh]
      exact hreq.1
    · rw [congrArg Prod.snd hsh]
      exact hreq.2
  · have hc2 : s.connected = false := by simpa using hc
    simp only [hc2, Bool.false_eq_true, if_false]
    exact ⟨hs, by simp [TraceOk]⟩

theorem add_inventory_body_shape (parse : List Nat → Except PyErr XmlElem)
    (partnum qty uomid cost loctagnum : String) (sc : Script) (s : Session) :
    (add_inventory_body parse partnum qty uomid cost loctagnum sc s).2 =
      (send_message parse
        (addInventoryRequest partnum qty uomid cost loctagnum s.key) sc s).2 := by
  unfold add_inventory_body
  rcases hsm : send_message parse
      (addInventoryRequest partnum qty uomid cost loctagnum s.key) sc s with
    ⟨res, s1, tr⟩
  cases res <;> rfl

theorem add_inventory_inv_trace (parse : List Nat → Except PyErr XmlElem)
    (partnum qty uomid cost loctagnum : String) (sc : Script) (s : Session)
    (hs : SessionInv s) :
    SessionInv (add_inventory parse partnum qty uomid cost loctagnum sc s).2.1 ∧
      TraceOk (add_inventory parse partnum qty uomid cost loctagnum sc s).2.2 := by
  unfold add_inventory require_connected
  by_cases hc : s.connected = true
  · simp only [hc, if_true]
    have hsh := add_inventory_body_shape parse partnum qty uomid cost loctagnum sc s
    constructor
    · rw [congrArg Prod.fst hsh]
      exact send_message_inv parse _ sc s hs
    · rw [congrArg Prod.snd hsh]
      exact send_message_traceOk parse _ sc s
  · have hc2 : s.connected = false := by simpa using hc
    simp only [hc2, Bool.false_eq_true, if_false]
    exact ⟨hs, by simp [TraceOk]⟩

theorem cycle_inventory_body_shape (parse : List Nat → Except PyErr XmlElem)
    (partnum qty locationid : String) (sc : Script) (s : Session) :
    (cycle_inventory_body parse partnum qty locationid sc s).2 =
      (send_message parse (cycleCountRequest partnum qty locationid s.key) sc s).2 := by
  unfold cycle_inventory_body
  rcases hsm : send_message parse
      (cycleCountRequest partnum qty locationid s.key) sc s with ⟨res, s1, tr⟩
  cases res <;> rfl

theorem cycle_inventory_inv_trace (parse : List Nat → Except PyErr XmlElem)
    (partnum qty locationid : String) (sc : Script) (s : Session)
    (hs : SessionInv s) :
    SessionInv (cycle_inventory parse partnum qty locationid sc s).2.1 ∧
      TraceOk (cycle_inventory parse partnum qty locationid sc s).2.2 := by
  unfold cycle_inventory require_connected
  by_cases hc : s.connected = true
  · simp only [hc, if_true]
    have hsh := cycle_inventory_body_shape parse partnum qty locationid sc s
    constructor
    · rw [congrArg Prod.fst hsh]
      exact send_message_inv parse _ sc s hs
    · rw [congrArg Prod.snd hsh]
      exact send_message_traceOk parse _ sc s
  · have hc2 : s.connected = false := by simpa using hc
    simp only [hc2, Bool.false_eq_true, if_false]
    exact ⟨hs, by simp [TraceOk]⟩

theorem get_po_list_inv_trace (parse : List Nat → Except PyErr XmlElem)
    (locationgroup : String) (sc : Script) (s : Session) (hs : SessionInv s) :
    SessionInv (get_po_list parse locationgroup sc s).2.1 ∧
      TraceOk (get_po_list parse locationgroup sc s).2.2 := by
  unfold get_po_list require_connected get_po_list_body
  by_cases hc : s.connected = true
  · simp only [hc, if_true]
    exact ⟨send_message_inv parse _ sc s hs, send_message_traceOk parse _ sc s⟩
  · have hc2 : s.connected = false := by simpa using hc
    simp only [hc2, Bool.false_eq_true, if_false]
    exact ⟨hs, by simp [TraceOk]⟩

/-- A connected session holding a valid key, for concrete evaluations. -/
def liveSession : Session :=
  { connected := true, key := some "ABC123", streamOpen := true,
    host := "localhost", port := 28192 }

/-- A parse oracle that always reports an XML syntax error. -/
def parseNoXml : List Nat → Except PyErr XmlElem :=
  fun _ => .error .xmlParseError

/-- A parse oracle returning a fixed tree. -/
def parseTo (t : XmlElem) : List Nat → Except PyErr XmlElem :=
  fun _ => .ok t

/-- A script delivering the framed `body`: the whole 4-byte length in the
first receive, then one body byte per receive. -/
def scriptFor (body : List Nat) : Script :=
  { first := .data (packBE4c body.length),
    rest := fun i => .byte (body.getD i 0) }

theorem delivers_scriptFor (body : List Nat) (h : body.length < 2 ^ 32) :
    delivers (scriptFor body) body :=
  ⟨rfl, h, fun _ _ => rfl⟩

/-- C5: framing round-trip: for every byte payload `P` whose length fits
the 4-byte header, `pack_message P` is the 4-byte unsigned big-endian
encoding of `len(P)` followed by `P`; decoding the first 4 bytes of the
framed message yields `len(P)` and the remainder equals `P` unchanged. -/
theorem spec_C5 (P : List Nat) (h : P.length < 2 ^ 32) :
    pack_message P = some (packBE4c P.length ++ P) ∧
    unpackBE4 ((packBE4c P.length ++ P).take 4) = some P.length ∧
    (packBE4c P.length ++ P).drop 4 = P := by
  have h4 : (packBE4c P.length).length = 4 := rfl
  refine ⟨?_, ?_, ?_⟩
  · unfold pack_message packBE4
    rw [if_pos h]
    rfl
  · rw [← h4, List.take_left]
    exact unpackBE4_packBE4c P.length h
  · rw [← h4, List.drop_left]

/-- C5 witness at the concrete payload [72, 105]. -/
theorem spec_C5_witness :
    ([72, 105] : List Nat).length < 2 ^ 32 ∧
    (pack_message [72, 105] =
        some (packBE4c ([72, 105] : List Nat).length ++ [72, 105]) ∧
      unpackBE4 ((packBE4c ([72, 105] : List Nat).length ++ [72, 105]).take 4) =
        some ([72, 105] : List Nat).length ∧
      (packBE4c ([72, 105] : List Nat).length ++ [72, 105]).drop 4 = [72, 105]) :=
  ⟨by decide, spec_C5 [72, 105] (by decide)⟩

/-- C6: status classification: every present code other than SUCCESS
makes `check_status` raise; SUCCESS never raises; a missing code raises
exactly when missing codes are not allowed; in general `check_status`
raises exactly when the code differs from the expected one and either
the code is present or missing codes are not allowed. -/
theorem spec_C6 :
    (∀ c : String, c ≠ SUCCESS → ∀ allow : Bool,
      check_status (some c) (some SUCCESS) allow =
        .error (get_status (some c))) ∧
    (∀ allow : Bool, check_status (some SUCCESS) (some SUCCESS) allow =
      .ok (get_status (some SUCCESS))) ∧
    check_status none (some SUCCESS) true = .ok (get_status none) ∧
    check_status none (some SUCCESS) false = .error (get_status none) ∧
    (∀ (code expected : Option String) (allow : Bool),
      (∃ m, check_status code expected allow = .error m) ↔
        (code ≠ expected ∧ (code ≠ none ∨ allow = false))) := by
  refine ⟨?_, ?_, ?_, ?_, ?_⟩
  · intro c hc allow
    simp [check_status, hc]
  · intro allow
    simp [check_status]
  · simp [check_status]
  · simp [check_status]
  · intro code expected allow
    by_cases hcond : code ≠ expected ∧ (code ≠ none ∨ allow = false)
    · rw [check_status, if_pos hcond]
      exact iff_of_true ⟨get_status code, rfl⟩ hcond
    · rw [check_status, if_neg hcond]
      refine iff_of_false ?_ hcond
      rintro ⟨m, hm⟩
      cases hm

/-- C6 witness: the failing code "1001". -/
theorem spec_C6_witness :
    ("1001" : String) ≠ SUCCESS ∧
    check_status (some "1001") (some SUCCESS) false =
      .error (get_status (some "1001")) :=
  ⟨by decide, spec_C6.1 "1001" (by decide) false⟩

/-- C7: every protected operation — every method wrapped in the
`require_connected` decorator, in particular `send_message`,
`send_request`, `send_query`, `add_inventory`, `cycle_inventory` and the
`get_po_list` accessor — called on a disconnected session raises
`OSError("Not connected")` immediately: no bytes are sent and the
session state is unchanged. -/
theorem spec_C7 (s : Session) (h : s.connected = false) :
    (∀ (α : Type) (f : Session → OpResult α),
      require_connected f s = (.error (.os "Not connected"), s, [])) ∧
    (∀ parse msg sc,
      send_message parse msg sc s = (.error (.os "Not connected"), s, [])) ∧
    (∀ parse name value rnn single silence sc,
      send_request parse name value rnn single silence sc s =
        (.error (.os "Not connected"), s, [])) ∧
    (∀ parse q sc,
      send_query parse q sc s = (.error (.os "Not connected"), s, [])) ∧
    (∀ parse p1 p2 p3 p4 p5 sc,
      add_inventory parse p1 p2 p3 p4 p5 sc s =
        (.error (.os "Not connected"), s, [])) ∧
    (∀ parse p1 p2 p3 sc,
      cycle_inventory parse p1 p2 p3 sc s =
        (.error (.os "Not connected"), s, [])) ∧
    (∀ parse g sc,
      get_po_list parse g sc s = (.error (.os "Not connected"), s, [])) := by
  have hg : ∀ (α : Type) (f : Session → OpResult α),
      require_connected f s = (.error (.os "Not connected"), s, []) := by
    intro α f
    simp [require_connected, h]
  exact ⟨hg,
    fun parse msg sc => hg _ _,
    fun parse name value rnn single silence sc => hg _ _,
    fun parse q sc => hg _ _,
    fun parse p1 p2 p3 p4 p5 sc => hg _ _,
    fun parse p1 p2 p3 sc => hg _ _,
    fun parse g sc => hg _ _⟩

/-- C7 witness: a fresh session refuses send_message without sending. -/
theorem spec_C7_witness :
    initSession.connected = false ∧
    send_message parseNoXml [] ⟨Recv4.timeout, fun _ => Recv1.timeout⟩
        initSession = (.error (.os "Not connected"), initSession, []) :=
  ⟨rfl, (spec_C7 initSession rfl).2.1 parseNoXml []
    ⟨Recv4.timeout, fun _ => Recv1.timeout⟩⟩

/-- C2: session invariant: from any state satisfying the invariant
(connected implies a present, non-empty session key), every embedded
public operation — connect, close, send_message, send_request,
send_query, add_inventory, cycle_inventory, get_po_list — leaves a state
satisfying the invariant whether it returns or raises, and every byte
send any of them performs happens while `connected` is true. -/
theorem spec_C2 (s : Session) (hs : SessionInv s) :
    (∀ parse u pw host port e,
      SessionInv (connect parse u pw host port e s).2.1 ∧
      TraceOk (connect parse u pw host port e s).2.2) ∧
    (∀ cr sk, SessionInv (close cr sk s).2.1 ∧ TraceOk (close cr sk s).2.2) ∧
    (∀ parse msg sc, SessionInv (send_message parse msg sc s).2.1 ∧
      TraceOk (send_message parse msg sc s).2.2) ∧
    (∀ parse name value rnn single silence sc,
      SessionInv (send_request parse name value rnn single silence sc s).2.1 ∧
      TraceOk (send_request parse name value rnn single silence sc s).2.2) ∧
    (∀ parse q sc, SessionInv (send_query parse q sc s).2.1 ∧
      TraceOk (send_query parse q sc s).2.2) ∧
    (∀ parse p1 p2 p3 p4 p5 sc,
      SessionInv (add_inventory parse p1 p2 p3 p4 p5 sc s).2.1 ∧
      TraceOk (add_inventory parse p1 p2 p3 p4 p5 sc s).2.2) ∧
    (∀ parse p1 p2 p3 sc,
      SessionInv (cycle_inventory parse p1 p2 p3 sc s).2.1 ∧
      TraceOk (cycle_inventory parse p1 p2 p3 sc s).2.2) ∧
    (∀ parse g sc, SessionInv (get_po_list parse g sc s).2.1 ∧
      TraceOk (get_po_list parse g sc s).2.2) := by
  refine ⟨?_, ?_, ?_, ?_, ?_, ?_, ?_, ?_⟩
  · intro parse u pw host port e
    exact connect_inv_trace parse u pw host port e s
  · intro cr sk
    exact ⟨close_inv cr sk s hs, close_traceOk cr sk s⟩
  · intro parse msg sc
    exact ⟨send_message_inv parse msg sc s hs, send_message_traceOk parse msg sc s⟩
  · intro parse name value rnn single silence sc
    exact send_request_inv_trace parse name value rnn single silence sc s hs
  · intro parse q sc
    exact send_query_inv_trace parse q sc s hs
  · intro parse p1 p2 p3 p4 p5 sc
    exact add_inventory_inv_trace parse p1 p2 p3 p4 p5 sc s hs
  · intro parse p1 p2 p3 sc
    exact cycle_inventory_inv_trace parse p1 p2 p3 sc s hs
  · intro parse g sc
    exact get_po_list_inv_trace parse g sc s hs

/-- C2 witness: the invariant holds of a live session and is preserved by
a close call. -/
theorem spec_C2_witness :
    SessionInv liveSession ∧
    SessionInv (close false true liveSession).2.1 ∧
    TraceOk (close false true liveSession).2.2 := by
  have hs : SessionInv liveSession := fun _ => ⟨"ABC123", rfl, by decide⟩
  have h := (spec_C2 liveSession hs).2.1 false true
  exact ⟨hs, h.1, h.2⟩

/-- C8 counterexample: `close` is wrapped in `require_connected`, so a
second close immediately after a successful close — the session now
disconnected — raises `OSError("Not connected")` even with
`skip_errors=true`, instead of completing without raising. -/
theorem spec_C8_counterexample :
    (close false false liveSession).1 = .ok () ∧
    (close false true (close false false liveSession).2.1).1 =
      .error (.os "Not connected") := by
  constructor <;> rfl

/-- C8 amended: `close` requires an active connection — calling it on an
already-disconnected session raises `OSError("Not connected")` even with
`skip_errors=true`, leaving the state untouched; when connected, `close`
clears `connected` and the session key before attempting the socket
close, so a failing underlying close never leaves the session looking
connected, and the close failure propagates exactly when
`skip_errors=false`. -/
theorem spec_C8_amended (s : Session) (cr sk : Bool) :
    (s.connected = false →
      close cr sk s = (.error (.os "Not connected"), s, [])) ∧
    (s.connected = true →
      (close cr sk s).2.1 = closedOf s ∧
      ((close cr sk s).1 = .error .streamCloseError ↔ cr = true ∧ sk = false) ∧
      (cr = false ∨ sk = true → (close cr sk s).1 = .ok ())) := by
  constructor
  · intro hc
    simp [close, require_connected, hc]
  · intro hc
    rcases close_shape cr sk s with ⟨_, hcr, hsk, hcl⟩ | ⟨_, hor, hcl⟩ | ⟨hc2, _⟩
    · rw [hcl]
      refine ⟨rfl, iff_of_true rfl ⟨hcr, hsk⟩, ?_⟩
      rintro (h | h)
      · rw [h] at hcr; cases hcr
      · rw [h] at hsk; cases hsk
    · rw [hcl]
      refine ⟨rfl, ?_, fun _ => rfl⟩
      refine iff_of_false (by rintro h; cases h) ?_
      rintro ⟨hcr, hsk⟩
      rcases hor with h | h
      · rw [hcr] at h; cases h
      · rw [hsk] at h; cases h
    · rw [hc] at hc2; cases hc2

/-- C8 amended witness: a live session with a failing socket close and
`skip_errors=false`: the state is cleared and the close failure
propagates. -/
theorem spec_C8_amended_witness :
    liveSession.connected = true ∧
    (close true false liveSession).2.1 = closedOf liveSession ∧
    (close true false liveSession).1 = .error .streamCloseError := by
  refine ⟨rfl, ((spec_C8_amended liveSession true false).2 rfl).1, ?_⟩
  exact ((spec_C8_amended liveSession true false).2 rfl).2.1.mpr ⟨rfl, rfl⟩

/-- A transport stream delivering the framed payload [65] — header bytes
0,0,0,1 then the body byte 65 — split into non-empty chunks, with the
single recv(4) call returning only the first two header bytes. -/
def splitHeaderScript : Script :=
  { first := .data [0, 0],
    rest := fun i => if i = 0 then .byte 0 else if i = 1 then .byte 1 else .byte 65 }

/-- C1 counterexample: the claim fails on the code: for the response
stream that splits the framed message for payload [65] into the
non-empty chunks [0,0], [0], [1], [65] (their concatenation is exactly
the 4-byte length followed by the body), `send_message` raises
`struct.error` from `unpack` instead of assembling the full length
header and a body of the decoded length — a single `recv(4)` call is
used for the header with no partial-read loop. -/
theorem spec_C1_counterexample :
    ([0, 0] : List Nat) ≠ [] ∧
    [0, 0] ++ [0] ++ [1] ++ [65] = packBE4c ([65] : List Nat).length ++ [65] ∧
    liveSession.connected = true ∧
    (send_message (parseTo emptyElem) [70] splitHeaderScript liveSession).1 =
      .error .structError := by
  refine ⟨by decide, by decide, rfl, rfl⟩

/-- C1 amended: the body is read tolerantly (one byte per receive, so
chunked body delivery is reassembled), but the 4-byte length header must
arrive in the single recv(4) call: whenever the first receive returns
the complete header and each subsequent receive returns one body byte,
a body of exactly the decoded length is assembled and handed to the XML
parser, with the session state untouched; a header split across receive
calls instead raises struct.error (see the counterexample). -/
theorem spec_C1_amended (parse : List Nat → Except PyErr XmlElem)
    (msg body : List Nat) (sc : Script) (s : Session)
    (hc : s.connected = true) (hm : msg.length < 2 ^ 32)
    (hd : delivers sc body) :
    send_message parse msg sc s = (parse body, s, [true]) :=
  send_message_of_delivers parse msg body sc s hc hm hd

/-- C1 amended witness: the two-byte body [72, 105] is reassembled and
given to the parser. -/
theorem spec_C1_amended_witness :
    liveSession.connected = true ∧ ([70] : List Nat).length < 2 ^ 32 ∧
    delivers (scriptFor [72, 105]) [72, 105] ∧
    send_message (parseTo emptyElem) [70] (scriptFor [72, 105]) liveSession =
      (.ok emptyElem, liveSession, [true]) := by
  have hd : delivers (scriptFor [72, 105]) [72, 105] :=
    delivers_scriptFor [72, 105] (by decide)
  exact ⟨rfl, by decide, hd,
    spec_C1_amended (parseTo emptyElem) [70] [72, 105] (scriptFor [72, 105])
      liveSession rfl (by decide) hd⟩

/-- C4: a socket timeout while reading the response closes the
connection (connected and key cleared, stream closed, secondary close
errors suppressed) and raises a FishbowlError whose message is
"Connection timeout (after length received)" when the timeout hits after
the 4-byte length header arrived and was decoded, and
"Connection timeout" when it hits the initial recv(4). -/
theorem spec_C4 (parse : List Nat → Except PyErr XmlElem) (msg : List Nat)
    (sc : Script) (s : Session) (hc : s.connected = true)
    (hm : msg.length < 2 ^ 32) :
    (sc.first = .timeout →
      send_message parse msg sc s =
        (.error (.fishbowl "Connection timeout"), closedOf s, [true])) ∧
    (∀ bs L j, sc.first = .data bs → unpackBE4 bs = some L →
      j < L → sc.rest j = .timeout → (∀ i, i < j → sc.rest i ≠ .timeout) →
      send_message parse msg sc s =
        (.error (.fishbowl "Connection timeout (after length received)"),
          closedOf s, [true])) := by
  have hpack : pack_message msg = some (packBE4c msg.length ++ msg) := by
    unfold pack_message packBE4
    rw [if_pos hm]
    rfl
  constructor
  · intro hf
    simp [send_message, require_connected, hc, send_message_body, hpack, hf]
  · intro bs L j hf hu hj ht hmin
    have hrb : read_body sc.rest 0 L [] = none :=
      read_body_timeout sc.rest L 0 j [] hj (by simpa using ht)
        (fun j2 h2 => by simpa using hmin j2 h2)
    simp [send_message, require_connected, hc, send_message_body, hpack,
      hf, hu, hrb]

/-- C4 witness: a timeout before the header gives "Connection timeout"; a
timeout after a header announcing 5 body bytes gives
"Connection timeout (after length received)"; both close the session. -/
theorem spec_C4_witness :
    (send_message (parseTo emptyElem) [70]
        ⟨Recv4.timeout, fun _ => Recv1.timeout⟩ liveSession =
      (.error (.fishbowl "Connection timeout"), closedOf liveSession, [true])) ∧
    (send_message (parseTo emptyElem) [70]
        ⟨Recv4.data (packBE4c 5), fun _ => Recv1.timeout⟩ liveSession =
      (.error (.fishbowl "Connection timeout (after length received)"),
        closedOf liveSession, [true])) := by
  constructor
  · exact (spec_C4 (parseTo emptyElem) [70]
      ⟨Recv4.timeout, fun _ => Recv1.timeout⟩ liveSession rfl (by decide)).1 rfl
  · exact (spec_C4 (parseTo emptyElem) [70]
      ⟨Recv4.data (packBE4c 5), fun _ => Recv1.timeout⟩ liveSession rfl
        (by decide)).2 (packBE4c 5) 5 0 rfl (by decide) (by decide) rfl
      (fun i h => absurd h (Nat.not_lt_zero i))

/-- C10: a receive returning zero bytes (peer closed mid-body) is still
counted as one received byte, so a stream that yields only k < L of the
announced L body bytes followed by end-of-stream makes the loop
terminate after L iterations with the truncated k-byte body, which is
then handed to the XML parser — not reported as a timeout or connection
error — and the session state is untouched. -/
theorem spec_C10 (parse : List Nat → Except PyErr XmlElem)
    (msg body : List Nat) (sc : Script) (s : Session) (L : Nat)
    (hc : s.connected = true) (hm : msg.length < 2 ^ 32) (hL : L < 2 ^ 32)
    (hk : body.length < L) (hf : sc.first = .data (packBE4c L))
    (hb : ∀ i, i < body.length → sc.rest i = .byte (body.getD i 0))
    (he : ∀ i, body.length ≤ i → i < L → sc.rest i = .eof) :
    send_message parse msg sc s = (parse body, s, [true]) := by
  have hpack : pack_message msg = some (packBE4c msg.length ++ msg) := by
    unfold pack_message packBE4
    rw [if_pos hm]
    rfl
  have hrb : read_body sc.rest 0 L [] = some body := by
    have hsplit : L = body.length + (L - body.length) := by omega
    rw [hsplit, read_body_consume sc.rest body 0 [] (L - body.length)
      (fun j hj => by simpa using hb j hj)]
    have heof := read_body_eof sc.rest (L - body.length) (0 + body.length)
      ([] ++ body) (fun j hj => by
        have := he (body.length + j) (by omega) (by omega)
        rw [show (0 + body.length) + j = body.length + j by omega]
        exact this)
    rw [heof]
    simp
  simp [send_message, require_connected, hc, send_message_body, hpack, hf,
    unpackBE4_packBE4c L hL, hrb]

/-- C10 witness: a header announcing 3 bytes, one real byte then
end-of-stream: the single byte [65] is handed to the parser. -/
theorem spec_C10_witness :
    send_message (parseTo emptyElem) [70]
      ⟨Recv4.data (packBE4c 3),
        fun i => if i = 0 then Recv1.byte 65 else Recv1.eof⟩
      liveSession = (.ok emptyElem, liveSession, [true]) := by
  have h := spec_C10 (parseTo emptyElem) [70] [65]
    ⟨Recv4.data (packBE4c 3),
      fun i => if i = 0 then Recv1.byte 65 else Recv1.eof⟩
    liveSession 3 rfl (by decide) (by decide) (by decide) rfl
    (by decide)
    (fun i h1 h2 => by
      have h1b : 1 ≤ i := by simpa using h1
      show (if i = 0 then Recv1.byte 65 else Recv1.eof) = Recv1.eof
      exact if_neg (by omega))
  exact h

/-- C9: for a `send_request` call with a response node name whose located
element exists under `FbiMsgsRs`: when the status code of the located element
validates (with missing codes allowed) and `single=false`, the located
element is returned with all its children unmodified and no exception;
when validation fails and `silence_errors=true`, an empty placeholder
element is returned instead of raising; when the code validates and
`single=true`, the result is the first child of the located element, or an
empty placeholder when it has no children. -/
theorem spec_C9 (parse : List Nat → Except PyErr XmlElem) (name : String)
    (value : Option String) (rname : String) (sc : Script) (s : Session)
    (body : List Nat) (root container located : XmlElem)
    (hc : s.connected = true)
    (hlen : (simpleRequest name value s.key).length < 2 ^ 32)
    (hd : delivers sc body) (hp : parse body = .ok root)
    (hf1 : root.find "FbiMsgsRs" = some container)
    (hf2 : container.find rname = some located) :
    ((∃ m, check_status (located.get "statusCode") (some SUCCESS) true = .ok m) →
      ∀ silence,
      send_request parse name value (some rname) false silence sc s =
        (.ok located, s, [true])) ∧
    ((∃ m, check_status (located.get "statusCode") (some SUCCESS) true = .error m) →
      ∀ single,
      send_request parse name value (some rname) single true sc s =
        (.ok emptyElem, s, [true])) ∧
    ((∃ m, check_status (located.get "statusCode") (some SUCCESS) true = .ok m) →
      ∀ silence,
      send_request parse name value (some rname) true silence sc s =
        (.ok (match located.children with | [] => emptyElem | c :: _ => c),
          s, [true])) := by
  have hbody : ∀ sg se,
      send_request parse name value (some rname) sg se sc s =
        (send_request_post root (some rname) sg se, s, [true]) := by
    intro sg se
    unfold send_request require_connected send_request_body
    simp only [hc, if_true]
    rw [send_message_of_delivers parse (simpleRequest name value s.key)
      body sc s hc hlen hd, hp]
  refine ⟨?_, ?_, ?_⟩
  · rintro ⟨m, hm⟩ silence
    rw [hbody false silence]
    simp [send_request_post, hf1, hf2, hm]
  · rintro ⟨m, hm⟩ single
    rw [hbody single true]
    simp [send_request_post, hf1, hf2, hm]
  · rintro ⟨m, hm⟩ silence
    rw [hbody true silence]
    simp only [send_request_post, hf1, hf2, hm, Prod.mk.injEq, and_true]
    cases located.children <;> simp

/-- One `LightPart` node for the end-to-end scenarios. -/
def lightPart (n : String) : XmlElem := .mk "LightPart" [("Num", n)] none []

/-- Scenario C response node: `LightPartListRs` with `statusCode="1000"`
and three `LightPart` children. -/
def lightLocated : XmlElem :=
  .mk "LightPartListRs" [("statusCode", "1000")] none
    [lightPart "A", lightPart "B", lightPart "C"]

def lightResp : XmlElem :=
  .mk "resp" [] none [.mk "FbiMsgsRs" [] none [lightLocated]]

/-- Scenario D response node: `statusCode="1001"` and no children. -/
def badLocated : XmlElem :=
  .mk "LightPartListRs" [("statusCode", "1001")] none []

def badResp : XmlElem :=
  .mk "resp" [] none [.mk "FbiMsgsRs" [] none [badLocated]]

/-- C9 witness: scenario C returns the located node with its three
children unmodified; scenario D with silence_errors returns the empty
placeholder without raising. -/
theorem spec_C9_witness :
    (send_request (parseTo lightResp) "LightPartListRq" none
        (some "LightPartListRs") false false (scriptFor [1]) liveSession =
      (.ok lightLocated, liveSession, [true])) ∧
    (send_request (parseTo badResp) "LightPartListRq" none
        (some "LightPartListRs") true true (scriptFor [1]) liveSession =
      (.ok emptyElem, liveSession, [true])) := by
  constructor
  · exact (spec_C9 (parseTo lightResp) "LightPartListRq" none
      "LightPartListRs" (scriptFor [1]) liveSession [1] lightResp
      (.mk "FbiMsgsRs" [] none [lightLocated]) lightLocated rfl (by decide)
      (delivers_scriptFor [1] (by decide)) rfl rfl rfl).1
      ⟨get_status (some "1000"), rfl⟩ false
  · exact (spec_C9 (parseTo badResp) "LightPartListRq" none
      "LightPartListRs" (scriptFor [1]) liveSession [1] badResp
      (.mk "FbiMsgsRs" [] none [badLocated]) badLocated rfl (by decide)
      (delivers_scriptFor [1] (by decide)) rfl rfl rfl).2.1
      ⟨get_status (some "1001"), rfl⟩ true

theorem connect_login_no_key (parse : List Nat → Except PyErr XmlElem)
    (u pw : String) (cr : Bool) (sc : Script) (s3 : Session)
    (body : List Nat) (root : XmlElem) (hc3 : s3.connected = true)
    (hlen : (loginRequest u pw).length < 2 ^ 32)
    (hd : delivers sc body) (hp : parse body = .ok root)
    (hkey : ∀ el ∈ root.iter, el.tag ≠ "Key")
    (hb : ∀ el ∈ root.iter, benignStatus el) :
    connect_login parse u pw cr sc s3 =
      (.error (.fishbowl "No login key in response"), closedOf s3, [true]) := by
  unfold connect_login
  rw [send_message_of_delivers parse (loginRequest u pw) body sc s3 hc3 hlen hd,
    hp]
  have hscan : login_scan root = .ok none :=
    login_scan_fold root.iter none hkey hb
  rcases connect_cleanup_shape (.fishbowl "No login key in response") cr s3
      [true] with ⟨_, hsh⟩ | ⟨hc4, _⟩
  · simp only [hscan, falsyKey, reduceIte, hsh]
  · rw [hc3] at hc4
    cases hc4

theorem connect_login_err_state (parse : List Nat → Except PyErr XmlElem)
    (u pw : String) (cr : Bool) (sc : Script) (s : Session)
    (hc : s.connected = true) (err : PyErr)
    (h : (connect_login parse u pw cr sc s).1 = .error err) :
    (connect_login parse u pw cr sc s).2.1.connected = false ∧
    (connect_login parse u pw cr sc s).2.1.streamOpen = false := by
  unfold connect_login at h ⊢
  rcases send_message_cases parse (loginRequest u pw) sc s with
      ⟨hcf, heq⟩ | heq | ⟨_, m, heq⟩ | ⟨_, heq⟩ | ⟨_, body, heq⟩
  · rw [hcf] at hc
    cases hc
  · rcases connect_cleanup_shape PyErr.structError cr s [] with
        ⟨_, hsh⟩ | ⟨hc4, hsh⟩
    · simp only [heq, hsh]
      simp [closedOf]
    · rw [hc4] at hc
      cases hc
  · rcases connect_cleanup_shape (PyErr.fishbowl m) cr (closedOf s) [true] with
        ⟨hc4, hsh⟩ | ⟨_, hsh⟩
    · simp [closedOf] at hc4
    · simp only [heq, hsh]
      simp [closedOf]
  · rcases connect_cleanup_shape PyErr.structError cr s [true] with
        ⟨_, hsh⟩ | ⟨hc4, hsh⟩
    · simp only [heq, hsh]
      simp [closedOf]
    · rw [hc4] at hc
      cases hc
  · rw [heq] at h ⊢
    rcases hp : parse body with e2 | resp
    · rcases connect_cleanup_shape e2 cr s [true] with ⟨_, hsh⟩ | ⟨hc4, hsh⟩
      · simp only [hsh]
        simp [closedOf]
      · rw [hc4] at hc
        cases hc
    · rcases hscan : login_scan resp with err2 | keyv
      · rcases connect_cleanup_shape err2 cr s [true] with ⟨_, hsh⟩ | ⟨hc4, hsh⟩
        · simp only [hscan, hsh]
          simp [closedOf]
        · rw [hc4] at hc
          cases hc
      · cases hfk : falsyKey keyv with
        | true =>
          rcases connect_cleanup_shape (.fishbowl "No login key in response")
              cr s [true] with ⟨_, hsh⟩ | ⟨hc4, hsh⟩
          · simp only [hscan, hfk, reduceIte, hsh]
            simp [closedOf]
          · rw [hc4] at hc
            cases hc
        | false =>
          rw [hp] at h
          simp [hscan, hfk] at h

/-- C3: starting from a disconnected session, when the stream opens and
the login exchange delivers a parsed response containing no `Key`
element while every status code on recognized tags is benign, `connect`
raises `FishbowlError("No login key in response")` and leaves the
session disconnected with the socket closed and the key cleared, even
when the secondary `stream.close()` itself raises (suppressed by
`skip_errors=True`); and after any failure of the login exchange,
`connected` is false and the socket has been closed. -/
theorem spec_C3 (parse : List Nat → Except PyErr XmlElem) (u pw : String)
    (host : Option String) (port : Option Nat) (e : ConnectEnv) (s : Session)
    (hc : s.connected = false) (hso : e.streamOk = true) :
    (∀ body root, (loginRequest u pw).length < 2 ^ 32 →
      delivers e.script body → parse body = .ok root →
      (∀ el ∈ root.iter, el.tag ≠ "Key") →
      (∀ el ∈ root.iter, benignStatus el) →
      (connect parse u pw host port e s).1 =
        .error (.fishbowl "No login key in response") ∧
      (connect parse u pw host port e s).2.1.connected = false ∧
      (connect parse u pw host port e s).2.1.streamOpen = false ∧
      (connect parse u pw host port e s).2.1.key = none) ∧
    (∀ err, (connect parse u pw host port e s).1 = .error err →
      (connect parse u pw host port e s).2.1.connected = false ∧
      (connect parse u pw host port e s).2.1.streamOpen = false) := by
  have hred : connect parse u pw host port e s =
      connect_login parse u pw e.closeRaises e.script
        { connected := true, key := none, streamOpen := true,
          host := host.getD s.host, port := port.getD s.port } := by
    unfold connect
    simp only [hc, Bool.false_eq_true, if_false, hso]
    rfl
  constructor
  · intro body root hlen hd hp hkey hb
    rw [hred, connect_login_no_key parse u pw e.closeRaises e.script _ body
      root rfl hlen hd hp hkey hb]
    exact ⟨rfl, rfl, rfl, rfl⟩
  · intro err herr
    rw [hred] at herr ⊢
    exact connect_login_err_state parse u pw e.closeRaises e.script _ rfl err herr

/-- A login response with a benign status code and no `Key` element. -/
def loginNoKeyResp : XmlElem :=
  .mk "FbiMsgsRs" [("statusCode", "1000")] none [.mk "LoginRs" [] none []]

/-- C3 witness: a fresh session, a login exchange whose response has
statusCode 1000 but no key, and a failing secondary close: connect
raises the protocol error and the session ends disconnected with the
socket closed. -/
theorem spec_C3_witness :
    initSession.connected = false ∧
    ((connect (parseTo loginNoKeyResp) "admin" "pw" none none
        ⟨true, true, scriptFor [1]⟩ initSession).1 =
      .error (.fishbowl "No login key in response") ∧
    (connect (parseTo loginNoKeyResp) "admin" "pw" none none
        ⟨true, true, scriptFor [1]⟩ initSession).2.1.connected = false ∧
    (connect (parseTo loginNoKeyResp) "admin" "pw" none none
        ⟨true, true, scriptFor [1]⟩ initSession).2.1.streamOpen = false ∧
    (connect (parseTo loginNoKeyResp) "admin" "pw" none none
        ⟨true, true, scriptFor [1]⟩ initSession).2.1.key = none) := by
  refine ⟨rfl, ?_⟩
  exact (spec_C3 (parseTo loginNoKeyResp) "admin" "pw" none none
    ⟨true, true, scriptFor [1]⟩ initSession rfl rfl).1 [1] loginNoKeyResp
    (by decide) (delivers_scriptFor [1] (by decide)) rfl (by decide) (by decide)
